import Mathlib

/-!
Verification development for `c-notify.py`, an event-to-sound notification
dispatcher for two AI coding assistants ("codex" and "claude").

The Python source is shallowly embedded below:
  * JSON payloads are modelled by the inductive `Json` (the output type of
    `json.loads`); the resolvers are embedded from the parsed payload on,
    mirroring `_parse_payload`.
  * Python floats are modelled by `ℚ`.  A JSON value stored where the code
    applies `float(...)` is modelled by `TsVal`: `TsVal.num q` stands for any
    value that `float()` converts to `q`, and `TsVal.invalid` for a value on
    which `float()` raises (the code catches the exception).
  * Dictionaries are association lists with unique keys (`json.loads`
    semantics); a config/state field whose stored value is not a dict is
    modelled by `Option.none` where the code guards with `isinstance(..., dict)`.
  * `random.choice(pool)` is modelled by indexing with `r % pool.length` for an
    arbitrary `r : Nat` supplied as a parameter.
  * The process-liveness probe `os.kill(pid, 0)` and the directory listing
    `_list_audio_files` are I/O and are passed in as explicit function
    parameters (`alive`, `listFiles`); `play_sound`'s returned pid is the
    parameter `playPid`.
  * Case mapping (`str.lower`) is modelled on ASCII, which covers every
    identifier and keyword the program manipulates.
-/

/-! ## Basic Python-string helpers -/

/-- First-match lookup in an association list (a JSON object's fields;
keys are unique, so this is `dict.get`). -/
def lookupAssoc {α : Type} : List (String × α) → String → Option α
  | [], _ => none
  | (k, v) :: rest, key => if k = key then some v else lookupAssoc rest key

/-- Python `d[k] = v`: replace the value at an existing key in place, else
append the new binding at the end (dict insertion order). -/
def setAssoc {α : Type} : List (String × α) → String → α → List (String × α)
  | [], k, v => [(k, v)]
  | (k1, v1) :: rest, k, v =>
    if k1 = k then (k, v) :: rest else (k1, v1) :: setAssoc rest k v

/-- Whether `needle` is an initial segment of `haystack`. -/
def startsWithChars : List Char → List Char → Bool
  | [], _ => true
  | _ :: _, [] => false
  | a :: as, b :: bs => a = b && startsWithChars as bs

/-- Python substring test `needle in haystack`, on character lists. -/
def containsSub (needle : List Char) : List Char → Bool
  | [] => needle.isEmpty
  | c :: rest => startsWithChars needle (c :: rest) || containsSub needle rest

/-- Python `str.lower()` (ASCII case mapping). -/
def pyLower (s : String) : String := String.mk (s.data.map Char.toLower)

/-- Whitespace stripped by Python `str.strip()`. -/
def isSpaceChar (c : Char) : Bool :=
  c = ' ' || c = '\t' || c = '\n' || c = '\x0d' || c = '\x0b' || c = '\x0c'

/-- Python `str.strip()`: drop leading and trailing whitespace. -/
def pyStrip (s : String) : String :=
  String.mk (((s.data.dropWhile isSpaceChar).reverse.dropWhile isSpaceChar).reverse)

/-- Characters kept by the slug regex class `[a-z0-9]`. -/
def isSlugKeep (c : Char) : Bool :=
  ('a' ≤ c && c ≤ 'z') || ('0' ≤ c && c ≤ '9')

/-- One pass of `re.sub(r"[^a-z0-9]+", "-", value)`: every maximal run of
characters outside `[a-z0-9]` becomes a single hyphen.  The flag records
whether the current run has already emitted its hyphen. -/
def collapseAux : Bool → List Char → List Char
  | _, [] => []
  | prevDash, c :: rest =>
    if isSlugKeep c then c :: collapseAux false rest
    else if prevDash then collapseAux true rest
    else '-' :: collapseAux true rest

/-- Python `str.strip("-")`. -/
def stripDash (l : List Char) : List Char :=
  ((l.dropWhile (fun c => c = '-')).reverse.dropWhile (fun c => c = '-')).reverse

/-- Source `_slug`: strip, lowercase, collapse non-alphanumeric runs to single
hyphens, trim hyphens. -/
def _slug (value : String) : String :=
  String.mk (stripDash (collapseAux false ((pyStrip value).data.map Char.toLower)))

/-! ## JSON payload model -/

/-- A parsed JSON document, as produced by `json.loads` inside
`_parse_payload`. -/
inductive Json where
  | null
  | bool (b : Bool)
  | num (q : ℚ)
  | str (s : String)
  | arr (xs : List Json)
  | obj (fields : List (String × Json))

/-- Python `payload.get(key)` guarded by `isinstance(payload, dict)`:
`none` both when the payload is not a dict and when the key is absent. -/
def jGet : Json → String → Option Json
  | .obj fields, key => lookupAssoc fields key
  | _, _ => none

/-- Python truthiness of a JSON value (used by the `or` chains). -/
def jTruthy : Json → Bool
  | .null => false
  | .bool b => b
  | .num q => decide (q ≠ 0)
  | .str s => decide (s ≠ "")
  | .arr xs => !xs.isEmpty
  | .obj fields => !fields.isEmpty

/-- Python `str()` of a JSON value.  Real payload fields are strings, where
this is the identity; the remaining cases render an approximation of Python's
textual form (no theorem below depends on those cases). -/
def jStr : Json → String
  | .null => "None"
  | .bool b => if b then "True" else "False"
  | .num q => toString q
  | .str s => s
  | .arr _ => "list"
  | .obj _ => "dict"

/-- Python `str(a or "")` for an optional payload field `a`. -/
def pyOr1Str (a : Option Json) : String :=
  match a with
  | some v => if jTruthy v then jStr v else ""
  | none => ""

/-- Python `str(a or b or "")` for optional payload fields `a`, `b`. -/
def pyOr2Str (a b : Option Json) : String :=
  match a with
  | some v => if jTruthy v then jStr v else pyOr1Str b
  | none => pyOr1Str b

/-- Python `value == "agent-turn-complete"`-style comparison of a JSON value
against a string literal. -/
def jIsStr (v : Json) (s : String) : Bool :=
  match v with
  | .str t => t = s
  | _ => false

/-! ## Alias tables (verbatim from the source) -/

def CODEX_ALIAS_MAP : List (String × String) := [
  ("agent-turn-complete", "agent-turn-complete"),
  ("complete", "task-complete"),
  ("done", "task-complete"),
  ("task-complete", "task-complete"),
  ("approval-requested", "approval-requested"),
  ("permission", "permission-needed"),
  ("permission-needed", "permission-needed"),
  ("approve", "permission-needed"),
  ("approval", "permission-needed"),
  ("error", "task-error"),
  ("task-error", "task-error"),
  ("fail", "task-error"),
  ("failed", "task-error"),
  ("resource-limit", "resource-limit"),
  ("rate-limit", "resource-limit"),
  ("quota", "resource-limit"),
  ("session-start", "session-start"),
  ("start", "session-start")
]

def CLAUDE_ALIAS_MAP : List (String × String) := [
  ("sessionstart", "session-start"),
  ("session-start", "session-start"),
  ("sessionend", "session-end"),
  ("session-end", "session-end"),
  ("subagentstart", "subagent-start"),
  ("subagent-start", "subagent-start"),
  ("subagentstop", "subagent-stop"),
  ("subagent-stop", "subagent-stop"),
  ("userpromptsubmit", "user-prompt-submit"),
  ("user-prompt-submit", "user-prompt-submit"),
  ("stop", "stop"),
  ("notification", "notification"),
  ("permissionrequest", "permission-request"),
  ("permission-request", "permission-request"),
  ("posttoolusefailure", "post-tool-use-failure"),
  ("post-tool-use-failure", "post-tool-use-failure"),
  ("precompact", "pre-compact"),
  ("pre-compact", "pre-compact"),
  ("pretooluse", "pre-tool-use"),
  ("pre-tool-use", "pre-tool-use"),
  ("posttooluse", "post-tool-use"),
  ("post-tool-use", "post-tool-use")
]

/-- Source `_normalize_codex_event`. -/
def _normalize_codex_event (raw_event : String) : String :=
  if raw_event = "" then ""
  else
    let lowered := _slug raw_event
    (lookupAssoc CODEX_ALIAS_MAP lowered).getD lowered

/-- Characters kept by the claude alias-key regex class `[A-Za-z0-9-]`. -/
def isClaudeKeep (c : Char) : Bool :=
  ('A' ≤ c && c ≤ 'Z') || ('a' ≤ c && c ≤ 'z') || ('0' ≤ c && c ≤ '9') || c = '-'

/-- The claude alias lookup key: `re.sub(r"[^A-Za-z0-9-]+", "", raw).lower()`. -/
def claudeAliasKey (raw : String) : String :=
  String.mk ((raw.data.filter isClaudeKeep).map Char.toLower)

/-- Source `_normalize_claude_event`. -/
def _normalize_claude_event (raw_event : String) : String :=
  if raw_event = "" then ""
  else
    let key := claudeAliasKey raw_event
    (lookupAssoc CLAUDE_ALIAS_MAP key).getD (_slug raw_event)

/-! ## Configuration and state model -/

/-- A stored JSON value at a position where the code applies `float(...)`:
`num q` stands for any value `float()` converts to `q`, `invalid` for one on
which it raises `TypeError`/`ValueError`. -/
inductive TsVal where
  | num (q : ℚ)
  | invalid
deriving DecidableEq

/-- An item of a keyword list: a string term, or a non-string item that the
`isinstance(term, str)` guard skips. -/
inductive KwTerm where
  | s (v : String)
  | nonstr
deriving DecidableEq

/-- A value stored under a key of `codex_keywords`: a list of items, or a
non-list that the `isinstance(terms, list)` guard skips. -/
inductive KwVal where
  | terms (l : List KwTerm)
  | notList
deriving DecidableEq

/-- The configuration fields the core logic reads.  `cooldown_by_event` and
`codex_keywords` are `none` when the stored value is not a dict (the code
guards both with `isinstance(..., dict)`); an absent field is the default
(`some []` resp. the built-in keyword table).  `prevent_overlap` is the
truthiness of the stored value. -/
structure Config where
  prevent_overlap : Bool
  cooldown_seconds : TsVal
  cooldown_by_event : Option (List (String × TsVal))
  codex_keywords : Option (List (String × KwVal))

/-- The `codex_keywords` table of `DEFAULT_CONFIG` (source lines 40-70). -/
def DEFAULT_CODEX_KEYWORDS : List (String × KwVal) := [
  ("permission-needed", .terms [
    .s "needs your approval",
    .s "need your approval",
    .s "approval requested",
    .s "approve this",
    .s "approve the command",
    .s "allow this command",
    .s "permission prompt"]),
  ("task-error", .terms [
    .s "error",
    .s "failed",
    .s "unable",
    .s "cannot",
    .s "can\x27t",
    .s "denied",
    .s "permission denied",
    .s "not found",
    .s "timed out",
    .s "exception"]),
  ("resource-limit", .terms [
    .s "rate limit",
    .s "quota",
    .s "429",
    .s "token limit",
    .s "context length",
    .s "context window"])
]

/-- The core-relevant fields of the source's `DEFAULT_CONFIG`
(`prevent_overlap=False`, `cooldown_seconds=0.0`, `cooldown_by_event={}`,
the keyword table above). -/
def DEFAULT_CONFIG : Config :=
  ⟨false, TsVal.num 0, some [], some DEFAULT_CODEX_KEYWORDS⟩

/-- The runtime-state fields the core logic reads and writes.  A field is
`none` when absent or not of the expected shape (the code normalizes both
cases); `playback_pid` is `some n` when the stored value is `int()`-convertible
to `n`. -/
structure CState where
  last_played : Option (List (String × String))
  last_event_ts : Option (List (String × TsVal))
  playback_pid : Option Int
deriving DecidableEq

/-! ## Category inferrer (codex) -/

/-- The per-term test of the inner loop of `_infer_codex_event_from_message`:
`isinstance(term, str) and term and term.lower() in lowered`. -/
def termHit (lowered : String) : KwTerm → Bool
  | .s v => decide (v ≠ "") && containsSub (pyLower v).data lowered.data
  | .nonstr => false

/-- The scanning loop of `_infer_codex_event_from_message`: try the keys in
order, return the first whose (list-valued) keyword group contains a hit;
`keywords.get(key, [])` makes a missing or non-list group a miss. -/
def inferScanKeys (lowered : String) (kw : List (String × KwVal)) : List String → String
  | [] => "task-complete"
  | key :: rest =>
    match lookupAssoc kw key with
    | some (.terms l) =>
      if l.any (termHit lowered) then key else inferScanKeys lowered kw rest
    | some .notList => inferScanKeys lowered kw rest
    | none => inferScanKeys lowered kw rest

/-- Source `_infer_codex_event_from_message`: lowercase the message and scan
the keyword groups in the fixed order of the source's tuple
`("permission-needed", "resource-limit", "task-error")`. -/
def _infer_codex_event_from_message (message : String) (config : Config) : String :=
  let lowered := pyLower message
  match config.codex_keywords with
  | none => "task-complete"
  | some kw => inferScanKeys lowered kw ["permission-needed", "resource-limit", "task-error"]

/-- Whether the keyword group stored under `key` contains a matching term for
the (already lowercased) message: the declarative match predicate used to
characterize the inferrer. -/
def groupMatches (lowered : String) (kw : List (String × KwVal)) (key : String) : Bool :=
  match lookupAssoc kw key with
  | some (.terms l) => l.any (termHit lowered)
  | _ => false

/-- Definition following the spec's words for the inferrer, to compare with
the source's `_infer_codex_event_from_message`: keyword groups in priority
order context-compaction, resource-limit, then permission-needed only when
gated on, then error; first match wins, default `task-complete`. -/
def inferFromMessageSpecOrder (message : String) (config : Config)
    (infer_permission : Bool) : String :=
  let lowered := pyLower message
  match config.codex_keywords with
  | none => "task-complete"
  | some kw =>
    inferScanKeys lowered kw
      (["context-compact", "resource-limit"]
        ++ (if infer_permission then ["permission-needed"] else [])
        ++ ["task-error"])

/-! ## Candidate resolvers -/

/-- The accumulator loop of source `_dedupe_keep_order`: skip empty strings,
skip items already seen, keep first occurrences in order. -/
def dedupeGo : List String → List String → List String
  | [], _ => []
  | x :: rest, seen =>
    if x = "" then dedupeGo rest seen
    else if x ∈ seen then dedupeGo rest seen
    else x :: dedupeGo rest (x :: seen)

/-- Source `_dedupe_keep_order`. -/
def _dedupe_keep_order (items : List String) : List String :=
  dedupeGo items []

/-- The candidate list built by the `if/elif/else` chain of source lines
582-594, as a function of the normalized event and the inferred category. -/
def codexBase (normalized inferred : String) : List String :=
  if normalized = "agent-turn-complete" then
    [inferred, "agent-turn-complete", "task-complete"]
  else if normalized = "approval-requested" then
    ["approval-requested", "permission-needed"]
  else if normalized ≠ "" then
    (if normalized = "permission-needed" then [normalized, "approval-requested"]
     else [normalized])
  else ["task-complete", "agent-turn-complete"]

/-- The candidate list of `resolve_codex_events` before deduplication:
`codexBase` plus the `candidates.insert(0, inferred)` of source lines 596-598,
applied when the payload's `type` field equals `"agent-turn-complete"`
(`pitc`) but the normalized event does not. -/
def codexCandidatesRaw (normalized inferred : String) (pitc : Bool) : List String :=
  if pitc = true ∧ normalized ≠ "agent-turn-complete" then
    inferred :: codexBase normalized inferred
  else codexBase normalized inferred

/-- Source `resolve_codex_events`, from the parsed payload on
(`_parse_payload` is the JSON-decoding boundary). -/
def resolve_codex_events (payload : Json) (event_override : String)
    (config : Config) : String × List String :=
  let payload_event := pyOr2Str (jGet payload "type") (jGet payload "event")
  let message := pyOr2Str (jGet payload "last-assistant-message") (jGet payload "message")
  let raw_event := if event_override ≠ "" then event_override else payload_event
  let normalized := _normalize_codex_event raw_event
  let pitc := match jGet payload "type" with
    | some v => jIsStr v "agent-turn-complete"
    | none => false
  let inferred := _infer_codex_event_from_message message config
  let candidates := _dedupe_keep_order (codexCandidatesRaw normalized inferred pitc)
  (if normalized = "" then "unknown" else normalized, candidates)

/-- The branch of source lines 626-641 building the claude base candidate
list from the normalized event and the `source` / `notification_type`
payload fields. -/
def claudeBase (normalized source notification_type : String) : List String :=
  if normalized = "session-start" then
    (let s := _slug source
     if s ≠ "" then ["session-start-" ++ s, "session-start"] else ["session-start"])
  else if normalized = "notification" then
    (let n := _slug notification_type
     if n ≠ "" then
       ("notification-" ++ n) ::
         (if n = "permission-prompt" then ["permission-request", "notification"]
          else ["notification"])
     else ["notification"])
  else if normalized ≠ "" then [normalized]
  else ["stop"]

/-- Source lines 643-646: append the slugified raw event name when it is
nonempty, differs from the normalized category and is not an alias key. -/
def claudeWithRaw (base : List String) (raw_event normalized : String) : List String :=
  if raw_event ≠ "" then
    (if _slug raw_event ≠ "" ∧ _slug raw_event ≠ normalized ∧
        lookupAssoc CLAUDE_ALIAS_MAP (_slug raw_event) = none
     then base ++ [_slug raw_event] else base)
  else base

/-- Source `resolve_claude_events`, from the parsed payload on. -/
def resolve_claude_events (payload : Json) (event_override : String) :
    String × List String :=
  let payload_event := pyOr2Str (jGet payload "hook_event_name") (jGet payload "event")
  let notification_type := pyOr1Str (jGet payload "notification_type")
  let source := pyOr1Str (jGet payload "source")
  let raw_event := if event_override ≠ "" then event_override else payload_event
  let normalized := _normalize_claude_event raw_event
  let candidates :=
    _dedupe_keep_order
      (claudeWithRaw (claudeBase normalized source notification_type) raw_event normalized)
  (if normalized = "" then "unknown" else normalized, candidates)

/-! ## Cooldown gate -/

/-- Source `_clamp_float`: `float(value)` with `dflt` on conversion failure,
then clamped below by `minimum`. -/
def _clamp_float (value : TsVal) (dflt : ℚ) (minimum : ℚ) : ℚ :=
  let parsed := match value with
    | .num q => q
    | .invalid => dflt
  max minimum parsed

/-- Source `_event_cooldown_seconds`: per-event override from
`cooldown_by_event` when it is a dict and has the key, else the global
`cooldown_seconds`; result clamped to be non-negative. -/
def _event_cooldown_seconds (config : Config) (event_name : String) : ℚ :=
  let raw := match config.cooldown_by_event with
    | some m => (lookupAssoc m event_name).getD config.cooldown_seconds
    | none => config.cooldown_seconds
  _clamp_float raw 0 0

/-- Source `_on_cooldown`. -/
def _on_cooldown (config : Config) (state : CState) (event_name : String)
    (now_ts : ℚ) : Bool :=
  let seconds := _event_cooldown_seconds config event_name
  if seconds ≤ 0 then false
  else
    match state.last_event_ts with
    | none => false
    | some m =>
      let last_ts : ℚ := match lookupAssoc m event_name with
        | some (.num q) => q
        | some .invalid => 0
        | none => 0
      if last_ts ≤ 0 then false
      else decide (now_ts - last_ts < seconds)

/-! ## Sound selection and playback orchestration -/

/-- Source `_is_pid_running`, with the `os.kill(pid, 0)` probe injected as
`alive`.  `none` covers a stored pid that is absent or not `int()`-convertible. -/
def _is_pid_running (alive : Int → Bool) (raw_pid : Option Int) : Bool :=
  match raw_pid with
  | none => false
  | some pid => if pid ≤ 0 then false else alive pid

/-- Source `_pick_sound`, with `random.choice` modelled by indexing with
`r % pool.length`.  Returns the chosen file and the state with
`last_played[state_key]` updated to it. -/
def _pick_sound (r : Nat) (state : CState) (state_key : String)
    (files : List String) : String × CState :=
  let lp := state.last_played.getD []
  let last_file := (lookupAssoc lp state_key).getD ""
  let pool := if files.length ≤ 1 then files
              else files.filter (fun f => f ≠ last_file)
  let pool2 := if pool.isEmpty then files else pool
  let chosen := pool2.getD (r % pool2.length) ""
  (chosen, { state with last_played := some (setAssoc lp state_key chosen) })

/-- The candidate loop of source `try_play_event` (lines 667-690): skip a
candidate on cooldown or with no eligible files; on the first playable
candidate pick a file, record `last_event_ts[event] = now_ts` and the player
pid, and stop. -/
def _attempt_candidates (listFiles : String → List String) (r : Nat)
    (playPid : Option Int) (tool : String) (config : Config) (now_ts : ℚ) :
    List String → CState → (Option String × Option String) × CState
  | [], state => ((none, none), state)
  | event_name :: rest, state =>
    if _on_cooldown config state event_name now_ts then
      _attempt_candidates listFiles r playPid tool config now_ts rest state
    else
      let files := listFiles event_name
      if files.isEmpty then
        _attempt_candidates listFiles r playPid tool config now_ts rest state
      else
        let state_key := tool ++ ":" ++ event_name
        let picked := _pick_sound r state state_key files
        let lts := picked.2.last_event_ts.getD []
        let st2 := { picked.2 with
          last_event_ts := some (setAssoc lts event_name (TsVal.num now_ts)),
          playback_pid := playPid }
        ((some picked.1, some event_name), st2)

/-- Source `try_play_event`: the overlap guard followed by the candidate
loop.  `listFiles` models `_list_audio_files (sound_root / tool / event)`,
`playPid` the pid returned by `play_sound`, `alive` the liveness probe. -/
def try_play_event (alive : Int → Bool) (listFiles : String → List String)
    (r : Nat) (playPid : Option Int) (tool : String) (candidates : List String)
    (config : Config) (state : CState) (now_ts : ℚ) :
    (Option String × Option String) × CState :=
  if config.prevent_overlap then
    if _is_pid_running alive state.playback_pid then ((none, none), state)
    else
      _attempt_candidates listFiles r playPid tool config now_ts candidates
        { state with playback_pid := none }
  else
    _attempt_candidates listFiles r playPid tool config now_ts candidates state

/-! ## Concrete payloads from the spec's scenarios -/

/-- Parsed form of the codex payload
`{"type":"agent-turn-complete","last-assistant-message":"Error: rate limit exceeded, quota 429"}`. -/
def c1Payload : Json := Json.obj [
  ("type", Json.str "agent-turn-complete"),
  ("last-assistant-message", Json.str "Error: rate limit exceeded, quota 429")]

/-- Parsed form of the claude payload `{"hook_event_name":"SomeFutureEvent"}`. -/
def c4Payload : Json := Json.obj [("hook_event_name", Json.str "SomeFutureEvent")]

/-- Parsed form of the claude payload
`{"hook_event_name":"Notification","notification_type":"permission_prompt"}`. -/
def c5Payload : Json := Json.obj [
  ("hook_event_name", Json.str "Notification"),
  ("notification_type", Json.str "permission_prompt")]

/-! ## Helper lemmas -/

theorem getD_mem {α : Type} :
    ∀ (l : List α) (n : Nat) (d : α), n < l.length → l.getD n d ∈ l := by
  intro l
  induction l with
  | nil => intro n d h; simp at h
  | cons a t ih =>
    intro n d h
    cases n with
    | zero => simp [List.getD_cons_zero]
    | succ m =>
      rw [List.getD_cons_succ]
      exact List.mem_cons_of_mem _ (ih m d (by simpa [Nat.succ_lt_succ_iff] using h))

theorem lookupAssoc_setAssoc {α : Type} (k : String) (v : α) :
    ∀ (m : List (String × α)), lookupAssoc (setAssoc m k v) k = some v := by
  intro m
  induction m with
  | nil => simp [setAssoc, lookupAssoc]
  | cons p rest ih =>
    obtain ⟨k1, v1⟩ := p
    by_cases h : k1 = k
    · simp [setAssoc, h, lookupAssoc]
    · simp [setAssoc, h, lookupAssoc, ih]

theorem dedupeGo_ne_nil (s : String) :
    ∀ (l seen : List String), s ∈ l → s ≠ "" → s ∉ seen → dedupeGo l seen ≠ [] := by
  intro l
  induction l with
  | nil => intro seen h; simp at h
  | cons x rest ih =>
    intro seen hmem hs hseen
    by_cases hx : x = ""
    · have hxs : s ∈ rest := by
        rcases List.mem_cons.mp hmem with h | h
        · exact absurd (h.trans hx) hs
        · exact h
      simpa [dedupeGo, hx] using ih seen hxs hs hseen
    · by_cases hx2 : x ∈ seen
      · have hxs : s ∈ rest := by
          rcases List.mem_cons.mp hmem with h | h
          · exact absurd (h ▸ hx2) hseen
          · exact h
        simpa [dedupeGo, hx, hx2] using ih seen hxs hs hseen
      · simp [dedupeGo, hx, hx2]

theorem dedupeGo_nodup :
    ∀ (l seen : List String),
      (dedupeGo l seen).Nodup ∧ ∀ x ∈ dedupeGo l seen, x ∉ seen ∧ x ≠ "" := by
  intro l
  induction l with
  | nil => intro seen; simp [dedupeGo]
  | cons a rest ih =>
    intro seen
    by_cases ha : a = ""
    · simpa [dedupeGo, ha] using ih seen
    · by_cases ha2 : a ∈ seen
      · simpa [dedupeGo, ha, ha2] using ih seen
      · have ihh := ih (a :: seen)
        rw [show dedupeGo (a :: rest) seen = a :: dedupeGo rest (a :: seen) by
          simp [dedupeGo, ha, ha2]]
        constructor
        · refine List.nodup_cons.mpr ⟨?_, ihh.1⟩
          intro hmem
          exact (ihh.2 a hmem).1 (List.mem_cons_self a seen)
        · intro x hx
          rcases List.mem_cons.mp hx with h | h
          · subst h; exact ⟨ha2, ha⟩
          · have h2 := ihh.2 x h
            exact ⟨fun hsx => h2.1 (List.mem_cons_of_mem a hsx), h2.2⟩

theorem dedupe_nodup (items : List String) : (_dedupe_keep_order items).Nodup :=
  (dedupeGo_nodup items []).1

theorem dedupe_no_empty (items : List String) :
    ∀ x ∈ _dedupe_keep_order items, x ≠ "" :=
  fun x hx => ((dedupeGo_nodup items []).2 x hx).2

theorem dedupe_ne_nil {items : List String} {s : String}
    (hmem : s ∈ items) (hs : s ≠ "") : _dedupe_keep_order items ≠ [] :=
  dedupeGo_ne_nil s items [] hmem hs (by simp)

theorem codexBase_has_nonempty (n i : String) :
    ∃ s, s ∈ codexBase n i ∧ s ≠ "" := by
  unfold codexBase
  by_cases h1 : n = "agent-turn-complete"
  · exact ⟨"agent-turn-complete", by simp [h1], by decide⟩
  · by_cases h2 : n = "approval-requested"
    · exact ⟨"approval-requested", by simp [h1, h2], by decide⟩
    · by_cases h3 : n = ""
      · exact ⟨"task-complete", by simp [h1, h2, h3], by decide⟩
      · by_cases h4 : n = "permission-needed"
        · exact ⟨n, by simp [h1, h2, h3, h4], h3⟩
        · exact ⟨n, by simp [h1, h2, h3, h4], h3⟩

theorem codexRaw_has_nonempty (n i : String) (p : Bool) :
    ∃ s, s ∈ codexCandidatesRaw n i p ∧ s ≠ "" := by
  obtain ⟨s, hs, hne⟩ := codexBase_has_nonempty n i
  unfold codexCandidatesRaw
  split
  · exact ⟨s, List.mem_cons_of_mem _ hs, hne⟩
  · exact ⟨s, hs, hne⟩

theorem claudeBase_has_nonempty (n src nt : String) :
    ∃ s, s ∈ claudeBase n src nt ∧ s ≠ "" := by
  unfold claudeBase
  by_cases h1 : n = "session-start"
  · refine ⟨"session-start", ?_, by decide⟩
    by_cases hs : _slug src = "" <;> simp [h1, hs]
  · by_cases h2 : n = "notification"
    · refine ⟨"notification", ?_, by decide⟩
      by_cases hn : _slug nt = ""
      · simp [h1, h2, hn]
      · by_cases hp : _slug nt = "permission-prompt" <;> simp [h1, h2, hn, hp]
    · by_cases h3 : n = ""
      · exact ⟨"stop", by simp [h1, h2, h3], by decide⟩
      · exact ⟨n, by simp [h1, h2, h3], h3⟩

theorem mem_claudeWithRaw {base : List String} {s : String} (raw n : String)
    (h : s ∈ base) : s ∈ claudeWithRaw base raw n := by
  unfold claudeWithRaw
  split
  · split
    · exact List.mem_append_left _ h
    · exact h
  · exact h

theorem codex_candidates_ne_nil_gen (n i : String) (p : Bool) :
    _dedupe_keep_order (codexCandidatesRaw n i p) ≠ [] := by
  obtain ⟨s, hs, hne⟩ := codexRaw_has_nonempty n i p
  exact dedupe_ne_nil hs hne

theorem claude_candidates_ne_nil_gen (n src nt raw : String) :
    _dedupe_keep_order (claudeWithRaw (claudeBase n src nt) raw n) ≠ [] := by
  obtain ⟨s, hs, hne⟩ := claudeBase_has_nonempty n src nt
  exact dedupe_ne_nil (mem_claudeWithRaw raw n hs) hne

theorem inferScanKeys_cons_pos (lowered : String) (kw : List (String × KwVal))
    (key : String) (rest : List String) (h : groupMatches lowered kw key = true) :
    inferScanKeys lowered kw (key :: rest) = key := by
  cases hk : lookupAssoc kw key with
  | none => simp [groupMatches, hk] at h
  | some v =>
    cases v with
    | notList => simp [groupMatches, hk] at h
    | terms l =>
      have h2 : l.any (termHit lowered) = true := by simpa [groupMatches, hk] using h
      simp [inferScanKeys, hk, h2]

theorem inferScanKeys_cons_neg (lowered : String) (kw : List (String × KwVal))
    (key : String) (rest : List String) (h : groupMatches lowered kw key = false) :
    inferScanKeys lowered kw (key :: rest) = inferScanKeys lowered kw rest := by
  cases hk : lookupAssoc kw key with
  | none => simp [inferScanKeys, hk]
  | some v =>
    cases v with
    | notList => simp [inferScanKeys, hk]
    | terms l =>
      have h2 : l.any (termHit lowered) = false := by simpa [groupMatches, hk] using h
      simp [inferScanKeys, hk, h2]

theorem attempt_no_play_state (lf : String → List String) (r : Nat)
    (pid : Option Int) (tool : String) (cfg : Config) (now : ℚ) :
    ∀ (cands : List String) (st : CState),
      (_attempt_candidates lf r pid tool cfg now cands st).1 = (none, none) →
      (_attempt_candidates lf r pid tool cfg now cands st).2 = st := by
  intro cands
  induction cands with
  | nil => intro st _; rfl
  | cons ev rest ih =>
    intro st h
    by_cases hcd : _on_cooldown cfg st ev now = true
    · simp only [_attempt_candidates, if_pos hcd] at h ⊢
      exact ih st h
    · by_cases hf : (lf ev).isEmpty = true
      · simp only [_attempt_candidates, if_neg hcd, if_pos hf] at h ⊢
        exact ih st h
      · simp only [_attempt_candidates, if_neg hcd, if_neg hf] at h
        simp at h

/-! ## Claim theorems -/

/-- Claim C1, counterexample: on the codex ambiguous-completion payload with
empty override and the default configuration, the candidate list is not the
singleton `["resource-limit"]` the claim states. -/
theorem c1_candidates_counterexample :
    (resolve_codex_events c1Payload "" DEFAULT_CONFIG).2 ≠ ["resource-limit"] := by
  decide

/-- Claim C1 (amended): on the codex ambiguous-completion payload with empty
override and the default configuration, the message infers `resource-limit`
(resource-limit keywords are checked before error keywords) and the candidate
list is `["resource-limit", "agent-turn-complete", "task-complete"]` — the
resolver appends the raw event and the plain completion category as fallbacks
after the inferred category. -/
theorem c1_codex_ambiguous_amended :
    _infer_codex_event_from_message "Error: rate limit exceeded, quota 429"
      DEFAULT_CONFIG = "resource-limit" ∧
    resolve_codex_events c1Payload "" DEFAULT_CONFIG =
      ("agent-turn-complete",
       ["resource-limit", "agent-turn-complete", "task-complete"]) := by
  exact ⟨by decide, by decide⟩

/-- Claim C2, counterexample: on the message "quota needs your approval" with
the default keyword configuration, the code returns `permission-needed`
(it checks permission keywords first, unconditionally), while the priority
order the claim states (resource-limit before permission-needed, and
permission-needed only when gated on — here the gate is off) yields
`resource-limit`. -/
theorem c2_priority_counterexample :
    _infer_codex_event_from_message "quota needs your approval" DEFAULT_CONFIG =
      "permission-needed" ∧
    inferFromMessageSpecOrder "quota needs your approval" DEFAULT_CONFIG false =
      "resource-limit" ∧
    ("permission-needed" : String) ≠ "resource-limit" := by
  exact ⟨by decide, by decide, by decide⟩

/-- Claim C2 (amended): for every message and keyword configuration, the
inferrer lowercases the message and tries the keyword groups in the fixed
priority order permission-needed, then resource-limit, then task-error —
there is no context-compaction group and no gating flag — returning the first
category whose group contains a nonempty string term that is a
case-insensitive substring of the message; with no match (or a non-dict
keyword configuration) it returns `task-complete`. -/
theorem c2_infer_priority_amended (message : String) (config : Config) :
    (config.codex_keywords = none →
      _infer_codex_event_from_message message config = "task-complete") ∧
    ∀ kw, config.codex_keywords = some kw →
      ((groupMatches (pyLower message) kw "permission-needed" = true →
          _infer_codex_event_from_message message config = "permission-needed") ∧
       (groupMatches (pyLower message) kw "permission-needed" = false →
        groupMatches (pyLower message) kw "resource-limit" = true →
          _infer_codex_event_from_message message config = "resource-limit") ∧
       (groupMatches (pyLower message) kw "permission-needed" = false →
        groupMatches (pyLower message) kw "resource-limit" = false →
        groupMatches (pyLower message) kw "task-error" = true →
          _infer_codex_event_from_message message config = "task-error") ∧
       (groupMatches (pyLower message) kw "permission-needed" = false →
        groupMatches (pyLower message) kw "resource-limit" = false →
        groupMatches (pyLower message) kw "task-error" = false →
          _infer_codex_event_from_message message config = "task-complete")) := by
  constructor
  · intro h
    simp [_infer_codex_event_from_message, h]
  · intro kw hkw
    have hrw : _infer_codex_event_from_message message config =
        inferScanKeys (pyLower message) kw
          ["permission-needed", "resource-limit", "task-error"] := by
      simp [_infer_codex_event_from_message, hkw]
    refine ⟨?_, ?_, ?_, ?_⟩
    · intro h1
      rw [hrw, inferScanKeys_cons_pos _ _ _ _ h1]
    · intro h1 h2
      rw [hrw, inferScanKeys_cons_neg _ _ _ _ h1, inferScanKeys_cons_pos _ _ _ _ h2]
    · intro h1 h2 h3
      rw [hrw, inferScanKeys_cons_neg _ _ _ _ h1, inferScanKeys_cons_neg _ _ _ _ h2,
        inferScanKeys_cons_pos _ _ _ _ h3]
    · intro h1 h2 h3
      rw [hrw, inferScanKeys_cons_neg _ _ _ _ h1, inferScanKeys_cons_neg _ _ _ _ h2,
        inferScanKeys_cons_neg _ _ _ _ h3]
      rfl

/-- Claim C2 witness: the amended priority theorem applied at a concrete
message matching only the resource-limit group of the default keywords. -/
theorem c2_infer_priority_amended_witness :
    _infer_codex_event_from_message "rate limit reached" DEFAULT_CONFIG =
      "resource-limit" := by
  have h := (c2_infer_priority_amended "rate limit reached" DEFAULT_CONFIG).2
    DEFAULT_CODEX_KEYWORDS rfl
  exact h.2.1 (by decide) (by decide)

/-- Claim C3, counterexample: resolving the explicit event `context-compact`
(for either assistant) yields the single candidate `["context-compact"]`;
no `resource-limit` fallback is appended after `context-compact`. -/
theorem c3_context_compact_counterexample :
    (resolve_codex_events (Json.obj []) "context-compact" DEFAULT_CONFIG).2 =
      ["context-compact"] ∧
    "resource-limit" ∉
      (resolve_codex_events (Json.obj []) "context-compact" DEFAULT_CONFIG).2 ∧
    (resolve_claude_events (Json.obj []) "context-compact").2 =
      ["context-compact"] ∧
    "resource-limit" ∉ (resolve_claude_events (Json.obj []) "context-compact").2 := by
  exact ⟨by decide, by decide, by decide, by decide⟩

/-- Claim C3 (amended): for every input, the candidate lists returned by both
resolvers contain no duplicates and no empty strings; but no `resource-limit`
fallback is injected after `context-compact` — resolving that category yields
exactly `["context-compact"]` for both assistants. -/
theorem c3_candidates_nodup_amended (payload : Json) (event_override : String)
    (config : Config) :
    ((resolve_codex_events payload event_override config).2.Nodup ∧
      ∀ s ∈ (resolve_codex_events payload event_override config).2, s ≠ "") ∧
    ((resolve_claude_events payload event_override).2.Nodup ∧
      ∀ s ∈ (resolve_claude_events payload event_override).2, s ≠ "") ∧
    resolve_codex_events (Json.obj []) "context-compact" config =
      ("context-compact", ["context-compact"]) ∧
    resolve_claude_events (Json.obj []) "context-compact" =
      ("context-compact", ["context-compact"]) := by
  refine ⟨⟨?_, ?_⟩, ⟨?_, ?_⟩, by rfl, by decide⟩
  · simp only [resolve_codex_events]
    exact dedupe_nodup _
  · simp only [resolve_codex_events]
    exact dedupe_no_empty _
  · simp only [resolve_claude_events]
    exact dedupe_nodup _
  · simp only [resolve_claude_events]
    exact dedupe_no_empty _

/-- Claim C3 witness: the amended no-duplicates theorem applied at a concrete
input. -/
theorem c3_candidates_nodup_witness :
    (resolve_codex_events (Json.obj []) "" DEFAULT_CONFIG).2.Nodup :=
  (c3_candidates_nodup_amended (Json.obj []) "" DEFAULT_CONFIG).1.1

/-- Claim C4, counterexample: on the unmapped claude payload the resolver
returns the slugified event name as a candidate, not the empty list the
claim states. -/
theorem c4_unmapped_counterexample :
    (resolve_claude_events c4Payload "").2 = ["somefutureevent"] ∧
    (resolve_claude_events c4Payload "").2 ≠ [] := by
  exact ⟨by decide, by decide⟩

/-- Claim C4 (amended): on the claude payload
`{"hook_event_name":"SomeFutureEvent"}` with empty override, the event name
normalizes to the slug `somefutureevent`, which is not a known claude
category, and the resolver returns it as the single candidate (the code has
no unmapped outcome and no `hook_strict_exit` option; `cmd_hook` always
returns exit code 0). -/
theorem c4_unmapped_amended :
    resolve_claude_events c4Payload "" = ("somefutureevent", ["somefutureevent"]) := by
  decide

/-- Claim C5, counterexample: on the claude notification payload with subtype
`permission_prompt`, the candidate list is not `["permission-needed"]` — that
category does not occur at all. -/
theorem c5_notification_counterexample :
    (resolve_claude_events c5Payload "").2 ≠ ["permission-needed"] ∧
    "permission-needed" ∉ (resolve_claude_events c5Payload "").2 := by
  exact ⟨by decide, by decide⟩

/-- Claim C5 (amended): on the claude payload
`{"hook_event_name":"Notification","notification_type":"permission_prompt"}`
the resolver maps the known subtype and returns the candidate list
`["notification-permission-prompt", "permission-request", "notification"]`. -/
theorem c5_notification_amended :
    resolve_claude_events c5Payload "" =
      ("notification",
       ["notification-permission-prompt", "permission-request", "notification"]) := by
  decide

/-- Claim C9: neither resolver ever returns an empty candidate list; codex
defaults to `["task-complete", "agent-turn-complete"]` on empty input and
claude defaults to `["stop"]`. -/
theorem c9_resolvers_nonempty (payload : Json) (event_override : String)
    (config : Config) :
    (resolve_codex_events payload event_override config).2 ≠ [] ∧
    (resolve_claude_events payload event_override).2 ≠ [] ∧
    resolve_codex_events (Json.obj []) "" config =
      ("unknown", ["task-complete", "agent-turn-complete"]) ∧
    resolve_claude_events (Json.obj []) "" = ("unknown", ["stop"]) := by
  refine ⟨?_, ?_, by rfl, by decide⟩
  · simp only [resolve_codex_events]
    exact codex_candidates_ne_nil_gen _ _ _
  · simp only [resolve_claude_events]
    exact claude_candidates_ne_nil_gen _ _ _ _

/-- Claim C9 witness: non-emptiness of the codex candidate list at a concrete
input, via the general theorem. -/
theorem c9_resolvers_nonempty_witness :
    (resolve_codex_events (Json.obj []) "" DEFAULT_CONFIG).2 ≠ [] :=
  (c9_resolvers_nonempty (Json.obj []) "" DEFAULT_CONFIG).1

/-- Claim C6: the cooldown gate uses the per-category override from
`cooldown_by_event` when present, else the global `cooldown_seconds` (both
clamped non-negative, with conversion failure falling back to 0); it returns
false whenever the effective threshold is non-positive or the stored last
timestamp for the category is absent, non-positive or invalid; otherwise it
returns true exactly when `now - last` is strictly less than the threshold —
in particular, with a per-category threshold of 10 and last timestamp `T > 0`,
it is true at `T + 9` and false at `T + 10.001`. -/
theorem c6_on_cooldown_spec (config : Config) (state : CState) (c : String) (now : ℚ) :
    (∀ m v, config.cooldown_by_event = some m → lookupAssoc m c = some v →
       _event_cooldown_seconds config c = _clamp_float v 0 0) ∧
    (∀ m, config.cooldown_by_event = some m → lookupAssoc m c = none →
       _event_cooldown_seconds config c = _clamp_float config.cooldown_seconds 0 0) ∧
    (config.cooldown_by_event = none →
       _event_cooldown_seconds config c = _clamp_float config.cooldown_seconds 0 0) ∧
    (_on_cooldown config state c now = true ↔
       0 < _event_cooldown_seconds config c ∧
       ∃ m q, state.last_event_ts = some m ∧ lookupAssoc m c = some (TsVal.num q) ∧
         0 < q ∧ now - q < _event_cooldown_seconds config c) ∧
    (∀ T : ℚ, 0 < T →
       _on_cooldown ⟨false, TsVal.num 0, some [(c, TsVal.num 10)], none⟩
         ⟨none, some [(c, TsVal.num T)], none⟩ c (T + 9) = true ∧
       _on_cooldown ⟨false, TsVal.num 0, some [(c, TsVal.num 10)], none⟩
         ⟨none, some [(c, TsVal.num T)], none⟩ c (T + 10001/1000) = false) := by
  refine ⟨?_, ?_, ?_, ?_, ?_⟩
  · intro m v hm hv
    simp [_event_cooldown_seconds, hm, hv]
  · intro m hm hv
    simp [_event_cooldown_seconds, hm, hv]
  · intro hm
    simp [_event_cooldown_seconds, hm]
  · constructor
    · intro h
      unfold _on_cooldown at h
      by_cases hs : _event_cooldown_seconds config c ≤ 0
      · simp [hs] at h
      · cases hts : state.last_event_ts with
        | none => rw [hts] at h; simp [hs] at h
        | some m =>
          rw [hts] at h
          simp only [if_neg hs] at h
          cases hlk : lookupAssoc m c with
          | none => rw [hlk] at h; simp at h
          | some v =>
            cases v with
            | invalid => rw [hlk] at h; simp at h
            | num q =>
              rw [hlk] at h
              by_cases hq : q ≤ 0
              · simp [hq] at h
              · refine ⟨not_le.mp hs, m, q, rfl, hlk, not_le.mp hq, ?_⟩
                simpa [hq] using h
    · rintro ⟨hsec, m, q, hts, hlk, hq, hlt⟩
      unfold _on_cooldown
      rw [hts]
      simp [not_le.mpr hsec, hlk, not_le.mpr hq, hlt]
  · intro T hT
    have h10 : _event_cooldown_seconds
        ⟨false, TsVal.num 0, some [(c, TsVal.num 10)], none⟩ c = 10 := by
      simp [_event_cooldown_seconds, lookupAssoc, _clamp_float]
    have hT2 : ¬ (T ≤ 0) := not_le.mpr hT
    constructor
    · unfold _on_cooldown
      rw [h10]
      simp [lookupAssoc, hT2]
      linarith
    · unfold _on_cooldown
      rw [h10]
      simp [lookupAssoc, hT2]
      linarith

/-- Claim C6 witness: the cooldown characterization applied at a concrete
category with override 10 and last timestamp 100. -/
theorem c6_on_cooldown_witness :
    _on_cooldown ⟨false, TsVal.num 0, some [("build", TsVal.num 10)], none⟩
      ⟨none, some [("build", TsVal.num 100)], none⟩ "build" (100 + 9) = true ∧
    _on_cooldown ⟨false, TsVal.num 0, some [("build", TsVal.num 10)], none⟩
      ⟨none, some [("build", TsVal.num 100)], none⟩ "build" (100 + 10001/1000) = false :=
  (c6_on_cooldown_spec ⟨false, TsVal.num 0, none, none⟩ ⟨none, none, none⟩ "build"
    0).2.2.2.2 100 (by norm_num)

/-- Claim C7: for every non-empty file list, the selector excludes the file
equal to `last_played[state_key]` from the pool when more than one file is
eligible, falls back to the unfiltered pool when the exclusion empties it or
only one file exists, records the chosen file under `last_played[state_key]`,
and never fails (the chosen file is always one of the given files); with
exactly two distinct files `A`, `B` and last-played `A` it always returns
`B`, and with a single file it always returns that file. -/
theorem c7_pick_sound_spec (r : Nat) (state : CState) (key : String)
    (files : List String) (hne : files ≠ []) :
    (_pick_sound r state key files).1 ∈ files ∧
    (_pick_sound r state key files).2.last_played =
      some (setAssoc (state.last_played.getD []) key (_pick_sound r state key files).1) ∧
    lookupAssoc ((_pick_sound r state key files).2.last_played.getD []) key =
      some (_pick_sound r state key files).1 ∧
    (1 < files.length →
      files.filter
          (fun f => f ≠ (lookupAssoc (state.last_played.getD []) key).getD "") ≠ [] →
      (_pick_sound r state key files).1 ≠
        (lookupAssoc (state.last_played.getD []) key).getD "") ∧
    (∀ A B, A ≠ B → files = [A, B] →
      lookupAssoc (state.last_played.getD []) key = some A →
      (_pick_sound r state key files).1 = B) ∧
    (∀ A, files = [A] → (_pick_sound r state key files).1 = A) := by
  have hpos : 0 < files.length := List.length_pos.mpr hne
  by_cases hlen : files.length ≤ 1
  · have hfst : (_pick_sound r state key files).1 = files.getD (r % files.length) "" := by
      simp only [_pick_sound, if_pos hlen, ite_self]
    have hlp : (_pick_sound r state key files).2.last_played =
        some (setAssoc (state.last_played.getD []) key (_pick_sound r state key files).1) := by
      simp only [_pick_sound, if_pos hlen, ite_self]
    have hmem : files.getD (r % files.length) "" ∈ files :=
      getD_mem files (r % files.length) "" (Nat.mod_lt r hpos)
    refine ⟨?_, hlp, ?_, ?_, ?_, ?_⟩
    · rw [hfst]; exact hmem
    · rw [hlp]
      simp only [Option.getD_some]
      exact lookupAssoc_setAssoc key _ _
    · intro hgt
      exact absurd hgt (by omega)
    · intro A B _ hAB _
      subst hAB
      simp at hlen
    · intro A hA
      subst hA
      rw [hfst]
      simp [Nat.mod_one]
  · by_cases hfil :
        files.filter (fun f => f ≠ (lookupAssoc (state.last_played.getD []) key).getD "")
          = []
    · have hc : (files.filter
          (fun f => f ≠ (lookupAssoc (state.last_played.getD []) key).getD "")).isEmpty
            = true := by
        rw [hfil]; rfl
      have hfst : (_pick_sound r state key files).1 = files.getD (r % files.length) "" := by
        simp only [_pick_sound, if_neg hlen, if_pos hc]
      have hlp : (_pick_sound r state key files).2.last_played =
          some (setAssoc (state.last_played.getD []) key (_pick_sound r state key files).1) := by
        simp only [_pick_sound, if_neg hlen, if_pos hc]
      have hmem : files.getD (r % files.length) "" ∈ files :=
        getD_mem files (r % files.length) "" (Nat.mod_lt r hpos)
      refine ⟨?_, hlp, ?_, ?_, ?_, ?_⟩
      · rw [hfst]; exact hmem
      · rw [hlp]
        simp only [Option.getD_some]
        exact lookupAssoc_setAssoc key _ _
      · intro _ hcon
        exact absurd hfil hcon
      · intro A B hAB hfe hlk
        subst hfe
        rw [hlk] at hfil
        simp [hAB, Ne.symm hAB] at hfil
      · intro A hA
        subst hA
        simp at hlen
    · have hc : ¬ ((files.filter
          (fun f => f ≠ (lookupAssoc (state.last_played.getD []) key).getD "")).isEmpty
            = true) := by
        cases hp : files.filter
            (fun f => f ≠ (lookupAssoc (state.last_played.getD []) key).getD "") with
        | nil => exact absurd hp hfil
        | cons a t => simp [hp]
      have hppos : 0 < (files.filter
          (fun f => f ≠ (lookupAssoc (state.last_played.getD []) key).getD "")).length :=
        List.length_pos.mpr hfil
      have hfst : (_pick_sound r state key files).1 =
          (files.filter
            (fun f => f ≠ (lookupAssoc (state.last_played.getD []) key).getD "")).getD
            (r % (files.filter
              (fun f => f ≠ (lookupAssoc (state.last_played.getD []) key).getD "")).length)
            "" := by
        simp only [_pick_sound, if_neg hlen, if_neg hc]
      have hlp : (_pick_sound r state key files).2.last_played =
          some (setAssoc (state.last_played.getD []) key (_pick_sound r state key files).1) := by
        simp only [_pick_sound, if_neg hlen, if_neg hc]
      have hmemp := getD_mem (files.filter
          (fun f => f ≠ (lookupAssoc (state.last_played.getD []) key).getD ""))
        (r % (files.filter
          (fun f => f ≠ (lookupAssoc (state.last_played.getD []) key).getD "")).length)
        "" (Nat.mod_lt r hppos)
      have hmem : (_pick_sound r state key files).1 ∈ files := by
        rw [hfst]
        exact (List.mem_filter.mp hmemp).1
      have hneq : (_pick_sound r state key files).1 ≠
          (lookupAssoc (state.last_played.getD []) key).getD "" := by
        rw [hfst]
        have h2 := (List.mem_filter.mp hmemp).2
        simpa using h2
      refine ⟨hmem, hlp, ?_, ?_, ?_, ?_⟩
      · rw [hlp]
        simp only [Option.getD_some]
        exact lookupAssoc_setAssoc key _ _
      · intro _ _
        exact hneq
      · intro A B hAB hfe hlk
        have hpB : files.filter
            (fun f => f ≠ (lookupAssoc (state.last_played.getD []) key).getD "") = [B] := by
          rw [hfe, hlk]
          simp [hAB, Ne.symm hAB]
        rw [hfst, hpB]
        simp [Nat.mod_one]
      · intro A hA
        subst hA
        simp at hlen

/-- Claim C7 witness: the selector theorem applied to two files with the
first recorded as last played always picks the second. -/
theorem c7_pick_sound_witness :
    (_pick_sound 0 ⟨some [("k", "a")], none, none⟩ "k" ["a", "b"]).1 = "b" := by
  have h := c7_pick_sound_spec 0 ⟨some [("k", "a")], none, none⟩ "k" ["a", "b"]
    (by decide)
  exact h.2.2.2.2.1 "a" "b" (by decide) rfl (by decide)

/-- Claim C8: with `prevent_overlap` enabled, a live stored playback pid makes
the playback attempt return no playback with the loaded state unchanged and no
candidate attempted; a dead (or absent/invalid) pid clears the stored pid and
hands the candidates to the candidate loop. -/
theorem c8_overlap_guard_spec (alive : Int → Bool) (listFiles : String → List String)
    (r : Nat) (playPid : Option Int) (tool : String) (cands : List String)
    (config : Config) (st : CState) (now : ℚ)
    (hov : config.prevent_overlap = true) :
    (_is_pid_running alive st.playback_pid = true →
       try_play_event alive listFiles r playPid tool cands config st now =
         ((none, none), st)) ∧
    (_is_pid_running alive st.playback_pid = false →
       try_play_event alive listFiles r playPid tool cands config st now =
         _attempt_candidates listFiles r playPid tool config now cands
           { st with playback_pid := none }) := by
  constructor
  · intro h
    simp [try_play_event, hov, h]
  · intro h
    simp [try_play_event, hov, h]

/-- Claim C8 witness: the overlap-guard theorem applied at a state holding a
live pid — the invocation returns no playback and the exact loaded state. -/
theorem c8_overlap_guard_witness :
    try_play_event (fun _ => true) (fun _ => []) 0 none "claude" ["stop"]
      ⟨true, TsVal.num 0, none, none⟩ ⟨none, none, some 42⟩ 0 =
      ((none, none), ⟨none, none, some 42⟩) :=
  (c8_overlap_guard_spec (fun _ => true) (fun _ => []) 0 none "claude" ["stop"]
    ⟨true, TsVal.num 0, none, none⟩ ⟨none, none, some 42⟩ 0 rfl).1 rfl

/-- Claim C10: whenever the playback attempt returns no playback — every
candidate skipped (cooldown or empty directory) or the overlap guard fired —
`last_played` and `last_event_ts` are exactly as loaded, and the only possible
state mutation is the overlap guard clearing `playback_pid`. -/
theorem c10_no_play_frame (alive : Int → Bool) (listFiles : String → List String)
    (r : Nat) (playPid : Option Int) (tool : String) (cands : List String)
    (config : Config) (st : CState) (now : ℚ)
    (h : (try_play_event alive listFiles r playPid tool cands config st now).1 =
      (none, none)) :
    (try_play_event alive listFiles r playPid tool cands config st now).2.last_played =
      st.last_played ∧
    (try_play_event alive listFiles r playPid tool cands config st now).2.last_event_ts =
      st.last_event_ts ∧
    ((try_play_event alive listFiles r playPid tool cands config st now).2.playback_pid =
        st.playback_pid ∨
     (try_play_event alive listFiles r playPid tool cands config st now).2.playback_pid =
        none) := by
  by_cases hov : config.prevent_overlap = true
  · by_cases hpid : _is_pid_running alive st.playback_pid = true
    · have he : try_play_event alive listFiles r playPid tool cands config st now =
          ((none, none), st) := by
        simp [try_play_event, hov, hpid]
      rw [he]
      exact ⟨rfl, rfl, Or.inl rfl⟩
    · have he : try_play_event alive listFiles r playPid tool cands config st now =
          _attempt_candidates listFiles r playPid tool config now cands
            { st with playback_pid := none } := by
        simp [try_play_event, hov, hpid]
      rw [he] at h ⊢
      rw [attempt_no_play_state listFiles r playPid tool config now cands
        { st with playback_pid := none } h]
      exact ⟨rfl, rfl, Or.inr rfl⟩
  · have he : try_play_event alive listFiles r playPid tool cands config st now =
        _attempt_candidates listFiles r playPid tool config now cands st := by
      simp [try_play_event, hov]
    rw [he] at h ⊢
    rw [attempt_no_play_state listFiles r playPid tool config now cands st h]
    exact ⟨rfl, rfl, Or.inl rfl⟩

/-- Claim C10 witness: the frame theorem applied where the single candidate
has an empty directory — the loaded state survives unchanged. -/
theorem c10_no_play_frame_witness :
    (try_play_event (fun _ => false) (fun _ => []) 0 none "codex" ["stop"]
      DEFAULT_CONFIG ⟨some [("k", "a")], some [("stop", TsVal.num 5)], some 7⟩
      0).2.last_played = some [("k", "a")] ∧
    (try_play_event (fun _ => false) (fun _ => []) 0 none "codex" ["stop"]
      DEFAULT_CONFIG ⟨some [("k", "a")], some [("stop", TsVal.num 5)], some 7⟩
      0).2.last_event_ts = some [("stop", TsVal.num 5)] ∧
    ((try_play_event (fun _ => false) (fun _ => []) 0 none "codex" ["stop"]
      DEFAULT_CONFIG ⟨some [("k", "a")], some [("stop", TsVal.num 5)], some 7⟩
      0).2.playback_pid = some 7 ∨
     (try_play_event (fun _ => false) (fun _ => []) 0 none "codex" ["stop"]
      DEFAULT_CONFIG ⟨some [("k", "a")], some [("stop", TsVal.num 5)], some 7⟩
      0).2.playback_pid = none) :=
  c10_no_play_frame (fun _ => false) (fun _ => []) 0 none "codex" ["stop"]
    DEFAULT_CONFIG ⟨some [("k", "a")], some [("stop", TsVal.num 5)], some 7⟩ 0
    (by decide)
